import Mathlib

/-!
Shallow embedding of the distant directional sensor plugin
(src/src/sensors/distant.cpp) of the eradiate-kernel repository.

Scalars (the C++ `Float` / single-channel `Spectrum`) are modelled as
rationals.  The single division in the sampling path (the shape-target
weight, line 297) is modelled with an IEEE-754-style extended value type
`ExtQ`, because division of a finite float by zero yields an infinity or
NaN, never zero; everywhere else the arithmetic is exact.

External collaborators that are part of the wider repository but absent
from src/ (spectral sampling, the concentric disk warp, vector
normalization, the scene bounding volume) are modelled from the spec; each
such definition carries a doc comment starting with "Modelled from the
spec:".  Everything else is translated directly from distant.cpp.
-/

set_option maxHeartbeats 1000000

namespace Distant

/-- 3D vector / point with rational coordinates (models `Vector3f` /
`Point3f`). -/
structure Vec3 where
  x : ℚ
  y : ℚ
  z : ℚ
deriving DecidableEq, Repr

def vadd (a b : Vec3) : Vec3 := ⟨a.x + b.x, a.y + b.y, a.z + b.z⟩

def vsub (a b : Vec3) : Vec3 := ⟨a.x - b.x, a.y - b.y, a.z - b.z⟩

def vneg (a : Vec3) : Vec3 := ⟨-a.x, -a.y, -a.z⟩

def vsmul (s : ℚ) (a : Vec3) : Vec3 := ⟨s * a.x, s * a.y, s * a.z⟩

/-- Dot product `dot(a, b)`. -/
def dotV (a b : Vec3) : ℚ := a.x * b.x + a.y * b.y + a.z * b.z

/-- Cross product `cross(a, b)`. -/
def crossV (a b : Vec3) : Vec3 :=
  ⟨a.y * b.z - a.z * b.y, a.z * b.x - a.x * b.z, a.x * b.y - a.y * b.x⟩

/-- Squared Euclidean norm; `squared_norm(v) = dot(v, v)`. -/
def normSq (a : Vec3) : ℚ := dotV a a

def v0 : Vec3 := ⟨0, 0, 0⟩

/-- `Frame3f::cos_theta(v)`: the z component of a vector, i.e. the cosine
of the angle between `v` and the local frame up axis (0,0,1) when `v` is a
unit vector (mitsuba core, not under src/). -/
def cos_theta (v : Vec3) : ℚ := v.z

/-- The axis against which `Frame3f::cos_theta` measures its cosine. -/
def upAxis : Vec3 := ⟨0, 0, 1⟩

/-- The value of the float constant `math::Pi<Float>` (the single-precision
rounding of pi), kept as an exact rational. -/
def mathPi : ℚ := 13176795 / 4194304

/-- The value of the float constant `math::RayEpsilon<Float>`
(= 1500 * machine epsilon / 2 = 1500 * 2 ^ (-24)), kept as an exact
rational. -/
def rayEpsilon : ℚ := 375 / 4194304

/-- IEEE-754-style extended value: the result of arithmetic on finite
floats, which is either a finite value (exact here), an infinity, or NaN. -/
inductive ExtQ where
  | fin (q : ℚ)
  | inf
  | neginf
  | nan
deriving DecidableEq, Repr

/-- IEEE-754 division of finite operands: for a nonzero divisor the exact
quotient, for a zero divisor an infinity of the numerator sign (NaN for
0/0).  This is the semantics of the `/` on line 297 of distant.cpp. -/
def divE (a b : ℚ) : ExtQ :=
  if b = 0 then
    if 0 < a then ExtQ.inf
    else if a < 0 then ExtQ.neginf
    else ExtQ.nan
  else ExtQ.fin (a / b)

/-- The enoki mask conjunction `value && mask` on a spectrum: keeps the
value bits where the mask is set, yielding zero where it is not. -/
def maskW (w : ExtQ) (m : Bool) : ExtQ := if m then w else ExtQ.fin 0

/-- Bounding sphere (`ScalarBoundingSphere3f`): center and radius. -/
structure BSphere where
  center : Vec3
  radius : ℚ
deriving DecidableEq, Repr

/-- A ray (`Ray3f`): origin, direction, time and wavelengths (the
wavelength payload is opaque here, one rational stands for it). -/
structure Ray where
  o : Vec3
  d : Vec3
  time : ℚ
  wavelengths : ℚ
deriving DecidableEq, Repr

/-- A position sample (`PositionSample3f`): sampled position, surface
normal there, and the sampling density. -/
structure PositionSample where
  p : Vec3
  n : Vec3
  pdf : ℚ
deriving DecidableEq, Repr

/-- The part of a surface interaction (`SurfaceInteraction3f`) that the
sensor reads after `ray_intersect`: the hit position `si.p` and the
validity flag `si.is_valid()`. -/
structure SurfaceInteraction where
  p : Vec3
  is_valid : Bool
deriving DecidableEq, Repr

/-- Modelled from the spec: the external shape collaborator interface -
`samplePosition(time, sample) -> (position, normal, pdf)` and
`intersect(ray) -> (hitPoint, isValid)` (the Shape class is not under
src/). -/
structure Shape where
  sample_position : ℚ → ℚ × ℚ → PositionSample
  ray_intersect : Ray → SurfaceInteraction

/-- A shape that is never consulted; stands for the default-initialized
member fields of the modes that do not use a shape. -/
def defaultShape : Shape :=
  { sample_position := fun _ _ => ⟨v0, v0, 0⟩
    ray_intersect := fun _ => ⟨v0, false⟩ }

/-- The linear part of a rigid transform, as its three columns; the code
only ever applies `transform_affine` to vectors, for which the translation
part is irrelevant. -/
structure Trafo where
  c0 : Vec3
  c1 : Vec3
  c2 : Vec3
deriving DecidableEq, Repr

/-- `trafo.transform_affine(v)` on a vector: the linear map given by the
columns. -/
def transformVec (t : Trafo) (v : Vec3) : Vec3 :=
  vadd (vadd (vsmul v.x t.c0) (vsmul v.y t.c1)) (vsmul v.z t.c2)

/-- The identity transform. -/
def idTrafo : Trafo := ⟨⟨1, 0, 0⟩, ⟨0, 1, 0⟩, ⟨0, 0, 1⟩⟩

/-- Modelled from the spec: the branchless orthonormal-basis construction
`coordinate_system(n)` of the core math library (not under src/); for a
unit vector n it returns two unit vectors completing n to an orthonormal
frame.  The sensor uses only its first component as the look-at up
vector. -/
def coordinate_system (n : Vec3) : Vec3 × Vec3 :=
  let sign : ℚ := if 0 ≤ n.z then 1 else -1
  let a := -1 / (sign + n.z)
  let b := n.x * n.y * a
  (⟨1 + sign * n.x ^ 2 * a, sign * b, -sign * n.x⟩,
   ⟨b, sign + n.y ^ 2 * a, -n.y⟩)

/-- Modelled from the spec: `ScalarTransform4f::look_at(origin, target, up)`
of the core transform library (not under src/), specialized to the call on
line 215 where origin = 0 and target = the (already unit) direction, so
that the inner `normalize(target - origin)` is `dir` itself.  The inner
normalization of `cross(up, dir)` is omitted: for the unit `up` orthogonal
to `dir` supplied by `coordinate_system`, that cross product is already a
unit vector.  Columns: left, new up, dir. -/
def look_at (dir up : Vec3) : Trafo :=
  let left := crossV up dir
  let newUp := crossV dir left
  ⟨left, newUp, dir⟩

/-- The look-at transform the constructor builds from a (normalized)
direction vector (lines 211-216). -/
def mkTrafoFromDir (d : Vec3) : Trafo := look_at d (coordinate_system d).1

/-- Modelled from the spec: the remaining external collaborators, absent
from src/ - the spectral sampling routine `sample_wavelength` (returns a
wavelength payload and a spectral weight), the concentric disk mapping
`warp::square_to_uniform_disk_concentric`, and vector normalization
`normalize` as used on the `direction` property.  Claims needing specific
facts about these take them as hypotheses. -/
structure Env where
  sample_wavelength : ℚ → ℚ × ℚ
  square_to_uniform_disk_concentric : ℚ × ℚ → ℚ × ℚ
  normalize : Vec3 → Vec3

/-- Modelled from the spec: the characteristic property of `normalize`:
the result is the unique positive rescaling of the input with unit
(squared) length. -/
def IsNormalizedOf (v d : Vec3) : Prop :=
  dotV d d = 1 ∧ ∃ k : ℚ, 0 < k ∧ d = vsmul k v

/-- `RayTargetType` (line 13). -/
inductive RayTargetType where
  | Shape
  | Point
  | None
deriving DecidableEq, Repr

/-- `RayOriginType` (line 14). -/
inductive RayOriginType where
  | Shape
  | BoundingSphere
deriving DecidableEq, Repr

/-- The state of a fully constructed `DistantSensorImpl`: the two strategy
tags (template parameters in the source), the world transform (time
dependent), and the member fields `m_ray_target_point`,
`m_ray_target_shape`, `m_ray_origin_shape`, `m_bsphere`. -/
structure SensorState where
  targetType : RayTargetType
  originType : RayOriginType
  m_world_transform : ℚ → Trafo
  m_ray_target_point : Vec3
  m_ray_target_shape : Shape
  m_ray_origin_shape : Shape
  m_bsphere : BSphere

/-- A property value as far as this sensor distinguishes them: a 3D point,
an object (here: a shape), or something else (which point parsing and
object lookup both reject). -/
inductive PropValue where
  | point (p : Vec3)
  | object (s : Shape)
  | other

/-- The configuration surface consumed by the sensor (the generic property
store restricted to the recognized keys, plus the film size that the
constructor checks). -/
structure Properties where
  direction : Option Vec3
  to_world : Option (ℚ → Trafo)
  ray_target : Option PropValue
  ray_origin : Option PropValue
  filmSize : ℕ × ℕ

/-- The target-strategy resolution of the `DistantSensor` constructor
(lines 92-103): a `ray_target` entry that parses as a point selects Point,
any other present entry selects Shape (the point parse throws and the
catch assumes a shape), an absent entry selects None. -/
def rayTargetTypeOf (props : Properties) : RayTargetType :=
  match props.ray_target with
  | some (PropValue.point _) => RayTargetType.Point
  | some _ => RayTargetType.Shape
  | none => RayTargetType.None

/-- The origin-strategy resolution of the `DistantSensor` constructor
(lines 106-110): a present `ray_origin` entry selects Shape, otherwise
BoundingSphere. -/
def rayOriginTypeOf (props : Properties) : RayOriginType :=
  match props.ray_origin with
  | some _ => RayOriginType.Shape
  | none => RayOriginType.BoundingSphere

/-- Lines 204-217 of the `DistantSensorImpl` constructor: the world
transform, possibly built from the `direction` parameter (normalized, then
turned into a look-at transform); supplying both `direction` and
`to_world` throws.  With neither, the base default (identity) stands. -/
def resolveTransform (env : Env) (props : Properties) :
    Except String (ℚ → Trafo) :=
  match props.direction with
  | some v =>
      if props.to_world.isSome then
        Except.error
          "Only one of the parameters direction and to_world can be specified at the same time!"
      else
        Except.ok (fun _ => mkTrafoFromDir (env.normalize v))
  | none =>
      match props.to_world with
      | some t => Except.ok t
      | none => Except.ok (fun _ => idTrafo)

/-- Lines 219-231: resolve the target point (Point mode). -/
def resolveTargetPoint (props : Properties) : Except String Vec3 :=
  match rayTargetTypeOf props with
  | RayTargetType.Point =>
      match props.ray_target with
      | some (PropValue.point p) => Except.ok p
      | _ => Except.error "Invalid parameter ray_target"
  | _ => Except.ok v0

/-- Lines 219-231: resolve the target shape (Shape mode); a `ray_target`
that is neither a point nor a shape throws here. -/
def resolveTargetShape (props : Properties) : Except String Shape :=
  match rayTargetTypeOf props with
  | RayTargetType.Shape =>
      match props.ray_target with
      | some (PropValue.object s) => Except.ok s
      | _ =>
          Except.error
            "Invalid parameter ray_target, must be a Point3f or a Shape."
  | _ => Except.ok defaultShape

/-- Lines 233-242: resolve the origin shape (Shape origin mode). -/
def resolveOriginShape (props : Properties) : Except String Shape :=
  match rayOriginTypeOf props with
  | RayOriginType.Shape =>
      match props.ray_origin with
      | some (PropValue.object s) => Except.ok s
      | _ => Except.error "Invalid parameter ray_origin, must be a Shape."
  | _ => Except.ok defaultShape

/-- The `DistantSensorImpl` constructor (lines 202-252) composed with the
strategy resolution of the wrapping `DistantSensor` (construction plus
`expand()`): checks direction/to_world exclusivity, resolves the target
point or shape, the origin shape, and the film size, producing either an
engine state or the thrown error message.  `m_bsphere` starts default
(center 0, radius 0) until `set_scene` runs. -/
def mkDistantSensorImpl (env : Env) (props : Properties) :
    Except String SensorState :=
  Except.bind (resolveTransform env props) fun wt =>
  Except.bind (resolveTargetPoint props) fun targetPoint =>
  Except.bind (resolveTargetShape props) fun targetShape =>
  Except.bind (resolveOriginShape props) fun originShape =>
  if props.filmSize ≠ (1, 1) then
    Except.error "This sensor only supports films of size 1x1 Pixels!"
  else
    Except.ok
      { targetType := rayTargetTypeOf props
        originType := rayOriginTypeOf props
        m_world_transform := wt
        m_ray_target_point := targetPoint
        m_ray_target_shape := targetShape
        m_ray_origin_shape := originShape
        m_bsphere := ⟨v0, 0⟩ }

/-- Modelled from the spec: the scene collaborator provides the bounding
sphere of its overall extent (`scene->bbox().bounding_sphere()`; the Scene
class is not under src/). -/
structure Scene where
  boundingSphere : BSphere

/-- `set_scene` (lines 254-259): store the bounding sphere of the scene
and inflate its radius to `max(RayEpsilon, radius * (1 + RayEpsilon))`. -/
def set_scene (st : SensorState) (scene : Scene) : SensorState :=
  { st with
    m_bsphere :=
      ⟨scene.boundingSphere.center,
       max rayEpsilon (scene.boundingSphere.radius * (1 + rayEpsilon))⟩ }

/-- Step 2 of `sample_ray_impl` (lines 277-278): the ray direction is the
world transform at the given time applied to the local +Z axis. -/
def dirOf (st : SensorState) (time : ℚ) : Vec3 :=
  transformVec (st.m_world_transform time) ⟨0, 0, 1⟩

/-- Step 3.1 of `sample_ray_impl` (lines 281-308): the target point and
the pre-mask ray weight, by target mode.  In Shape mode
`SurfaceInteraction3f si(ps, ...)` copies `ps.p` and `ps.n`, and the
weight divides by `ps.pdf` with float semantics (`divE`). -/
def sampleTargetOf (env : Env) (st : SensorState) (time : ℚ)
    (aperture_sample : ℚ × ℚ) (wavWeight : ℚ) (d : Vec3) : Vec3 × ExtQ :=
  match st.targetType with
  | RayTargetType.Point =>
      (st.m_ray_target_point, ExtQ.fin (wavWeight * cos_theta (vneg d)))
  | RayTargetType.Shape =>
      let ps := st.m_ray_target_shape.sample_position time aperture_sample
      (ps.p, divE (wavWeight * dotV (vneg d) ps.n) ps.pdf)
  | RayTargetType.None =>
      let offset := env.square_to_uniform_disk_concentric aperture_sample
      let perpOffset :=
        transformVec (st.m_world_transform time) ⟨offset.1, offset.2, 0⟩
      (vadd st.m_bsphere.center (vsmul st.m_bsphere.radius perpOffset),
       ExtQ.fin (wavWeight * (mathPi * st.m_bsphere.radius ^ 2)))

/-- Step 3.2 of `sample_ray_impl` (lines 310-326): the ray origin and the
updated per-sample mask, by origin mode.  In Shape mode the probe ray
starts at the target with the negated direction; the mask picks up the
validity of the intersection and the origin is set to `si.p`
unconditionally.  In BoundingSphere mode the origin backs off by one
radius (None target) or two radii (Point/Shape target). -/
def sampleOriginOf (st : SensorState) (time : ℚ) (ray_target d : Vec3)
    (wavelengths : ℚ) (active : Bool) : Vec3 × Bool :=
  match st.originType with
  | RayOriginType.Shape =>
      let tmp_ray : Ray := ⟨ray_target, vneg d, time, wavelengths⟩
      let si := st.m_ray_origin_shape.ray_intersect tmp_ray
      (si.p, active && si.is_valid)
  | RayOriginType.BoundingSphere =>
      match st.targetType with
      | RayTargetType.None =>
          (vsub ray_target (vsmul st.m_bsphere.radius d), active)
      | _ => (vsub ray_target (vsmul (2 * st.m_bsphere.radius) d), active)

/-- The result of one sample: the assembled ray, the returned weight
(`ray_weight && active`, line 328), plus two ghost outputs that the proofs
refer to - the internal `ray_target` local and the final value of the
per-sample `active` mask at the return point. -/
structure SampleResult where
  ray : Ray
  target : Vec3
  weight : ExtQ
  active : Bool

/-- `sample_ray_impl` (lines 261-329): sample the wavelengths, evaluate
the world transform at `time` and take the direction, sample the target
point and weight, determine the origin and the final mask, and return the
assembled ray with the masked weight. -/
def sample_ray_impl (env : Env) (st : SensorState)
    (time wavelength_sample : ℚ) (aperture_sample : ℚ × ℚ)
    (active : Bool) : SampleResult :=
  let wl := env.sample_wavelength wavelength_sample
  let d := dirOf st time
  let tw := sampleTargetOf env st time aperture_sample wl.2 d
  let oa := sampleOriginOf st time tw.1 d wl.1 active
  { ray := ⟨oa.1, d, time, wl.1⟩
    target := tw.1
    weight := maskW tw.2 oa.2
    active := oa.2 }

/-- One bundled sample invocation, for stating batch processing. -/
structure SampleInput where
  time : ℚ
  wavelength_sample : ℚ
  aperture_sample : ℚ × ℚ
  active : Bool

def sampleAt (env : Env) (st : SensorState) (i : SampleInput) : SampleResult :=
  sample_ray_impl env st i.time i.wavelength_sample i.aperture_sample i.active

/-- A batch of samples is processed element-wise (the scalar model of the
vectorized lanes). -/
def sampleBatch (env : Env) (st : SensorState) (l : List SampleInput) :
    List SampleResult :=
  l.map (sampleAt env st)

/-- The probe ray of Shape-origin mode for a bundled input: origin at the
sampled target, direction the negated ray direction (line 313). -/
def probeRayOf (env : Env) (st : SensorState) (i : SampleInput) : Ray :=
  ⟨(sampleTargetOf env st i.time i.aperture_sample
      (env.sample_wavelength i.wavelength_sample).2 (dirOf st i.time)).1,
   vneg (dirOf st i.time), i.time,
   (env.sample_wavelength i.wavelength_sample).1⟩

/-- An environment with trivial collaborators, used for concrete
instances. -/
def trivEnv : Env :=
  { sample_wavelength := fun w => (w, 1)
    square_to_uniform_disk_concentric := fun p => (2 * p.1 - 1, 2 * p.2 - 1)
    normalize := fun v => v }

/-- A property bag with nothing set and a 1x1 film. -/
def trivProps : Properties :=
  { direction := none
    to_world := none
    ray_target := none
    ray_origin := none
    filmSize := (1, 1) }

theorem Vec3.ext3 (a b : Vec3) (hx : a.x = b.x) (hy : a.y = b.y)
    (hz : a.z = b.z) : a = b := by
  cases a; cases b; simp_all

lemma normSq_nonneg (v : Vec3) : 0 ≤ normSq v := by
  simp only [normSq, dotV]
  nlinarith [mul_self_nonneg v.x, mul_self_nonneg v.y, mul_self_nonneg v.z]

/-- Cauchy-Schwarz for the 3D dot product. -/
lemma dot_sq_le_normSq_mul (u w : Vec3) :
    dotV u w ^ 2 ≤ normSq u * normSq w := by
  simp only [normSq, dotV]
  nlinarith [sq_nonneg (u.x * w.y - u.y * w.x), sq_nonneg (u.x * w.z - u.z * w.x),
    sq_nonneg (u.y * w.z - u.z * w.y)]

/-- Backing a point inside a sphere of radius r off by 2r along a unit
direction lands at squared distance at least r^2 from the center. -/
lemma backoff_two (u d : Vec3) (r : ℚ) (hr : 0 ≤ r) (hd : normSq d = 1)
    (hu : normSq u ≤ r ^ 2) :
    r ^ 2 ≤ normSq (vsub u (vsmul (2 * r) d)) := by
  have hcs := dot_sq_le_normSq_mul u d
  rw [hd, mul_one] at hcs
  have hb2 : dotV u d ^ 2 ≤ r ^ 2 := le_trans hcs hu
  have hb : dotV u d ≤ r := by nlinarith
  have hexp : normSq (vsub u (vsmul (2 * r) d)) =
      normSq u - 2 * (2 * r) * dotV u d + (2 * r) ^ 2 * normSq d := by
    simp only [normSq, dotV, vsub, vsmul]
    ring
  rw [hexp, hd]
  nlinarith [mul_nonneg (sub_nonneg.mpr hb)
    (by linarith : (0 : ℚ) ≤ 3 * r - dotV u d)]

/-- Backing a point of the cross-section disk off by one radius along a
unit direction orthogonal to the disk plane lands at squared distance at
least r^2 from the center. -/
lemma backoff_perp (perp d : Vec3) (r : ℚ) (hd : normSq d = 1)
    (hperp : dotV perp d = 0) :
    r ^ 2 ≤ normSq (vsub (vsmul r perp) (vsmul r d)) := by
  have hexp : normSq (vsub (vsmul r perp) (vsmul r d)) =
      r ^ 2 * (normSq perp - 2 * dotV perp d + normSq d) := by
    simp only [normSq, dotV, vsub, vsmul]
    ring
  rw [hexp, hd, hperp]
  nlinarith [mul_nonneg (sq_nonneg r) (normSq_nonneg perp)]

/-- In-plane column combinations are orthogonal to the third column image
of the local +Z axis, given orthogonal transform columns. -/
lemma perp_dot (T : Trafo) (o1 o2 : ℚ) (h0 : dotV T.c0 T.c2 = 0)
    (h1 : dotV T.c1 T.c2 = 0) :
    dotV (transformVec T ⟨o1, o2, 0⟩) (transformVec T ⟨0, 0, 1⟩) = 0 := by
  simp only [transformVec, vadd, vsmul, dotV] at h0 h1 ⊢
  ring_nf
  ring_nf at h0 h1
  linear_combination o1 * h0 + o2 * h1

/-- C7: scene attachment is a full, idempotent recomputation: `set_scene`
stores exactly the bounding sphere of the scene with radius
`max(RayEpsilon, radius * (1 + RayEpsilon))`, a second call with the same
scene yields the identical state (no accumulation), and every other field
of the sensor state is untouched. -/
theorem C7_set_scene_idempotent (st : SensorState) (scene : Scene) :
    set_scene (set_scene st scene) scene = set_scene st scene ∧
    (set_scene st scene).m_bsphere =
      ⟨scene.boundingSphere.center,
       max rayEpsilon (scene.boundingSphere.radius * (1 + rayEpsilon))⟩ ∧
    (set_scene st scene).targetType = st.targetType ∧
    (set_scene st scene).originType = st.originType ∧
    (set_scene st scene).m_world_transform = st.m_world_transform ∧
    (set_scene st scene).m_ray_target_point = st.m_ray_target_point ∧
    (set_scene st scene).m_ray_target_shape = st.m_ray_target_shape ∧
    (set_scene st scene).m_ray_origin_shape = st.m_ray_origin_shape :=
  ⟨rfl, rfl, rfl, rfl, rfl, rfl, rfl, rfl⟩

/-- C6: supplying both a `direction` and a `to_world` entry makes sensor
construction throw (lines 205-209); no engine state is ever produced. -/
theorem C6_direction_to_world_exclusive (env : Env) (props : Properties)
    (v : Vec3) (t : ℚ → Trafo)
    (hd : props.direction = some v) (ht : props.to_world = some t) :
    mkDistantSensorImpl env props =
      Except.error
        "Only one of the parameters direction and to_world can be specified at the same time!" ∧
    ∀ st : SensorState, mkDistantSensorImpl env props ≠ Except.ok st := by
  have h1 : resolveTransform env props =
      Except.error
        "Only one of the parameters direction and to_world can be specified at the same time!" := by
    simp [resolveTransform, hd, ht]
  have h2 : mkDistantSensorImpl env props =
      Except.error
        "Only one of the parameters direction and to_world can be specified at the same time!" := by
    simp [mkDistantSensorImpl, h1, Except.bind]
  exact ⟨h2, fun st h => by simp [h2] at h⟩

/-- Concrete property bag with both `direction` and `to_world` set. -/
def c6Props : Properties :=
  { trivProps with direction := some ⟨0, 0, 1⟩, to_world := some fun _ => idTrafo }

/-- C6 witness: the exclusivity failure at a concrete configuration. -/
theorem C6_direction_to_world_exclusive_witness :
    c6Props.direction = some ⟨0, 0, 1⟩ ∧
    (c6Props.to_world = some fun _ => idTrafo) ∧
    mkDistantSensorImpl trivEnv c6Props =
      Except.error
        "Only one of the parameters direction and to_world can be specified at the same time!" :=
  ⟨rfl, rfl,
    (C6_direction_to_world_exclusive trivEnv c6Props ⟨0, 0, 1⟩ (fun _ => idTrafo)
      rfl rfl).1⟩

/-- C4: in Point-target mode the target is the fixed configured point, and
the returned weight is the spectral weight times `Frame3f::cos_theta` of
the reversed ray direction, which equals its dot product with the frame up
axis (0,0,1) - for the unit direction guaranteed by a rigid transform this
dot product is the cosine of the angle between the reversed direction and
the up axis.  The weight carries the final per-sample mask (`&& active`,
line 328). -/
theorem C4_point_target_weight (env : Env) (st : SensorState)
    (time ws : ℚ) (ap : ℚ × ℚ) (act : Bool)
    (hT : st.targetType = RayTargetType.Point)
    (_hunit : normSq (dirOf st time) = 1) :
    (sample_ray_impl env st time ws ap act).target = st.m_ray_target_point ∧
    cos_theta (vneg (dirOf st time)) = dotV (vneg (dirOf st time)) upAxis ∧
    (sample_ray_impl env st time ws ap act).weight =
      maskW (ExtQ.fin ((env.sample_wavelength ws).2 *
          dotV (vneg (dirOf st time)) upAxis))
        (sample_ray_impl env st time ws ap act).active := by
  have hcd : cos_theta (vneg (dirOf st time)) =
      dotV (vneg (dirOf st time)) upAxis := by
    simp [cos_theta, dotV, upAxis, vneg]
  refine ⟨?_, hcd, ?_⟩
  · simp [sample_ray_impl, sampleTargetOf, hT]
  · simp [sample_ray_impl, sampleTargetOf, hT, hcd]

/-- Concrete Point-target / BoundingSphere-origin state. -/
def pointState : SensorState :=
  { targetType := RayTargetType.Point
    originType := RayOriginType.BoundingSphere
    m_world_transform := fun _ => idTrafo
    m_ray_target_point := ⟨0, 0, 1/2⟩
    m_ray_target_shape := defaultShape
    m_ray_origin_shape := defaultShape
    m_bsphere := ⟨v0, 1⟩ }

/-- C4 witness at a concrete Point-target sensor. -/
theorem C4_point_target_weight_witness :
    pointState.targetType = RayTargetType.Point ∧
    normSq (dirOf pointState 0) = 1 ∧
    (sample_ray_impl trivEnv pointState 0 0 (0, 0) true).target =
      pointState.m_ray_target_point :=
  have h1 : pointState.targetType = RayTargetType.Point := rfl
  have h2 : normSq (dirOf pointState 0) = 1 := by
    norm_num [normSq, dirOf, pointState, idTrafo, transformVec, vadd, vsmul, dotV]
  ⟨h1, h2, (C4_point_target_weight trivEnv pointState 0 0 (0, 0) true h1 h2).1⟩

/-- C8: in Point-target mode the aperture sample has no influence on the
generated ray: two calls with identical time and wavelength sample but
arbitrary aperture samples produce the same target point, the same origin
and the same direction (for either origin strategy). -/
theorem C8_point_target_aperture_independent (env : Env) (st : SensorState)
    (time ws : ℚ) (a1 a2 : ℚ × ℚ) (act : Bool)
    (hT : st.targetType = RayTargetType.Point) :
    (sample_ray_impl env st time ws a1 act).target =
      (sample_ray_impl env st time ws a2 act).target ∧
    (sample_ray_impl env st time ws a1 act).ray.o =
      (sample_ray_impl env st time ws a2 act).ray.o ∧
    (sample_ray_impl env st time ws a1 act).ray.d =
      (sample_ray_impl env st time ws a2 act).ray.d := by
  cases hO : st.originType <;>
    simp [sample_ray_impl, sampleTargetOf, sampleOriginOf, hT, hO]

/-- C8 witness: two aperture samples at the concrete Point-target
sensor. -/
theorem C8_point_target_aperture_independent_witness :
    pointState.targetType = RayTargetType.Point ∧
    (sample_ray_impl trivEnv pointState 0 0 (0, 0) true).ray.o =
      (sample_ray_impl trivEnv pointState 0 0 (1/3, 2/3) true).ray.o :=
  ⟨rfl,
    (C8_point_target_aperture_independent trivEnv pointState 0 0 (0, 0)
      (1/3, 2/3) true rfl).2.1⟩

/-- C9: in Shape-origin mode the origin field of the returned ray is
always the position `si.p` of the surface-interaction record produced by
the probe intersection, also when that record is invalid; the direction is
untouched, and the invalidity is signalled only through the zero weight
and the cleared mask. -/
theorem C9_shape_origin_assigns_hit_position (env : Env) (st : SensorState)
    (i : SampleInput) (hO : st.originType = RayOriginType.Shape) :
    (sampleAt env st i).ray.o =
      (st.m_ray_origin_shape.ray_intersect (probeRayOf env st i)).p ∧
    (sampleAt env st i).ray.d = dirOf st i.time ∧
    ((st.m_ray_origin_shape.ray_intersect (probeRayOf env st i)).is_valid
        = false →
      (sampleAt env st i).weight = ExtQ.fin 0 ∧
      (sampleAt env st i).active = false) := by
  refine ⟨?_, ?_, fun hmiss => ?_⟩
  · simp [sampleAt, sample_ray_impl, sampleOriginOf, probeRayOf, hO]
  · simp [sampleAt, sample_ray_impl, sampleOriginOf, hO]
  · have hmiss2 : (st.m_ray_origin_shape.ray_intersect
        ⟨(sampleTargetOf env st i.time i.aperture_sample
            (env.sample_wavelength i.wavelength_sample).2 (dirOf st i.time)).1,
          vneg (dirOf st i.time), i.time,
          (env.sample_wavelength i.wavelength_sample).1⟩).is_valid = false :=
      hmiss
    constructor <;>
      simp [sampleAt, sample_ray_impl, sampleOriginOf, hO, maskW, hmiss2]

/-- An origin shape whose backward probe never hits; its interaction
record reports position (5,6,7) with the invalid flag. -/
def missShape : Shape :=
  { sample_position := fun _ _ => ⟨v0, v0, 0⟩
    ray_intersect := fun _ => ⟨⟨5, 6, 7⟩, false⟩ }

/-- Concrete Point-target / Shape-origin state whose origin shape never
intersects. -/
def missState : SensorState :=
  { targetType := RayTargetType.Point
    originType := RayOriginType.Shape
    m_world_transform := fun _ => idTrafo
    m_ray_target_point := v0
    m_ray_target_shape := defaultShape
    m_ray_origin_shape := missShape
    m_bsphere := ⟨v0, 1⟩ }

def missInput : SampleInput :=
  { time := 0, wavelength_sample := 0, aperture_sample := (0, 0), active := true }

/-- C9 witness: the missing probe still writes the record position into
the ray origin. -/
theorem C9_shape_origin_assigns_hit_position_witness :
    missState.originType = RayOriginType.Shape ∧
    (sampleAt trivEnv missState missInput).ray.o =
      (missState.m_ray_origin_shape.ray_intersect
        (probeRayOf trivEnv missState missInput)).p :=
  ⟨rfl, (C9_shape_origin_assigns_hit_position trivEnv missState missInput rfl).1⟩

/-- C3: in Shape-origin mode, when the backward probe ray does not
intersect the origin shape, the sample comes back with weight exactly zero
and a cleared per-sample mask - no exception, the sampling function is
total.  Batches are processed element-wise (`sampleBatch` is a map), so
the invalidation of one sample never touches another lane. -/
theorem C3_shape_origin_miss_invalidates (env : Env) (st : SensorState)
    (i : SampleInput) (hO : st.originType = RayOriginType.Shape)
    (hmiss : (st.m_ray_origin_shape.ray_intersect
        (probeRayOf env st i)).is_valid = false) :
    (sampleAt env st i).weight = ExtQ.fin 0 ∧
    (sampleAt env st i).active = false ∧
    ∀ (l : List SampleInput) (j : ℕ),
      (sampleBatch env st l)[j]? = (l[j]?).map (sampleAt env st) := by
  have hmiss2 : (st.m_ray_origin_shape.ray_intersect
      ⟨(sampleTargetOf env st i.time i.aperture_sample
          (env.sample_wavelength i.wavelength_sample).2 (dirOf st i.time)).1,
        vneg (dirOf st i.time), i.time,
        (env.sample_wavelength i.wavelength_sample).1⟩).is_valid = false := hmiss
  refine ⟨?_, ?_, fun l j => by simp [sampleBatch]⟩ <;>
    simp [sampleAt, sample_ray_impl, sampleOriginOf, hO, maskW, hmiss2]

/-- C3 witness: the concrete never-hitting origin shape zeroes the weight
and clears the mask. -/
theorem C3_shape_origin_miss_invalidates_witness :
    missState.originType = RayOriginType.Shape ∧
    (missState.m_ray_origin_shape.ray_intersect
      (probeRayOf trivEnv missState missInput)).is_valid = false ∧
    (sampleAt trivEnv missState missInput).weight = ExtQ.fin 0 :=
  ⟨rfl, rfl,
    (C3_shape_origin_miss_invalidates trivEnv missState missInput rfl rfl).1⟩

/-- The None-target / BoundingSphere-origin state of the end-to-end
scenario: direction (0,0,-1) (already unit, so its normalization is
itself), scene bounding sphere center (0,0,0) and radius 1. -/
def c5State : SensorState :=
  { targetType := RayTargetType.None
    originType := RayOriginType.BoundingSphere
    m_world_transform := fun _ => mkTrafoFromDir ⟨0, 0, -1⟩
    m_ray_target_point := v0
    m_ray_target_shape := defaultShape
    m_ray_origin_shape := defaultShape
    m_bsphere := ⟨v0, 1⟩ }

/-- C5: in None-target mode the target point is the bounding-sphere
center plus radius times the world-space image of the concentric disk
offset of the aperture sample; the weight is the spectral weight times
pi * radius^2 (masked by the sample validity), independent of the
aperture sample.  At the concrete scenario (center 0, radius 1, direction
(0,0,-1), aperture sample the square center, which the disk mapping sends
to the disk center) the target is (0,0,0), the origin (0,0,1) and the
weight is the spectral weight times pi. -/
theorem C5_none_target_disk (env : Env) (st : SensorState) (time ws : ℚ)
    (a1 a2 : ℚ × ℚ) (act : Bool)
    (hT : st.targetType = RayTargetType.None)
    (hO : st.originType = RayOriginType.BoundingSphere)
    (hC : env.square_to_uniform_disk_concentric (1/2, 1/2) = (0, 0)) :
    (sample_ray_impl env st time ws a1 act).target =
      vadd st.m_bsphere.center (vsmul st.m_bsphere.radius
        (transformVec (st.m_world_transform time)
          ⟨(env.square_to_uniform_disk_concentric a1).1,
           (env.square_to_uniform_disk_concentric a1).2, 0⟩)) ∧
    (sample_ray_impl env st time ws a1 act).weight =
      maskW (ExtQ.fin ((env.sample_wavelength ws).2 *
        (mathPi * st.m_bsphere.radius ^ 2))) act ∧
    (sample_ray_impl env st time ws a1 act).weight =
      (sample_ray_impl env st time ws a2 act).weight ∧
    (sample_ray_impl env c5State time ws (1/2, 1/2) true).target = v0 ∧
    (sample_ray_impl env c5State time ws (1/2, 1/2) true).ray.o = ⟨0, 0, 1⟩ ∧
    (sample_ray_impl env c5State time ws (1/2, 1/2) true).weight =
      ExtQ.fin ((env.sample_wavelength ws).2 * mathPi) := by
  refine ⟨?_, ?_, ?_, ?_, ?_, ?_⟩
  · simp [sample_ray_impl, sampleTargetOf, sampleOriginOf, hT, hO]
  · simp [sample_ray_impl, sampleTargetOf, sampleOriginOf, hT, hO]
  · simp [sample_ray_impl, sampleTargetOf, sampleOriginOf, hT, hO]
  · norm_num [sample_ray_impl, sampleTargetOf, sampleOriginOf, c5State, hC,
      mkTrafoFromDir, look_at, coordinate_system, crossV, transformVec, vadd,
      vsub, vsmul, v0]
  · norm_num [sample_ray_impl, sampleTargetOf, sampleOriginOf, dirOf, c5State,
      hC, mkTrafoFromDir, look_at, coordinate_system, crossV, transformVec,
      vadd, vsub, vsmul, v0]
  · norm_num [sample_ray_impl, sampleTargetOf, sampleOriginOf, c5State, hC,
      maskW]

/-- C5 witness: the scenario at the trivial environment, whose concentric
mapping sends the square center to the disk center. -/
theorem C5_none_target_disk_witness :
    c5State.targetType = RayTargetType.None ∧
    c5State.originType = RayOriginType.BoundingSphere ∧
    trivEnv.square_to_uniform_disk_concentric (1/2, 1/2) = (0, 0) ∧
    (sample_ray_impl trivEnv c5State 0 0 (1/2, 1/2) true).ray.o = ⟨0, 0, 1⟩ :=
  have hC : trivEnv.square_to_uniform_disk_concentric (1/2, 1/2) = (0, 0) := by
    norm_num [trivEnv]
  ⟨rfl, rfl, hC,
    (C5_none_target_disk trivEnv c5State 0 0 (1/2, 1/2) (0, 0) true rfl rfl
      hC).2.2.2.2.1⟩

/-- C2 as stated is refuted below for a Point target outside the bounding
sphere; it holds under the additional hypothesis that the target lies
within the sphere.  Hypotheses: BoundingSphere origin mode, a rigid world
transform at the sampled time (unit image of +Z, orthogonal columns), a
nonnegative radius, and - in Point/Shape target modes - that the target
point (the configured point, resp. the sampled shape position) lies within
the bounding sphere; None mode needs no extra hypothesis.  Conclusion: the
returned origin is at squared distance at least radius^2 from the center
(equivalently, Euclidean distance at least the radius). -/
theorem C2_bsphere_origin_distance (env : Env) (st : SensorState)
    (time ws : ℚ) (ap : ℚ × ℚ) (act : Bool)
    (hO : st.originType = RayOriginType.BoundingSphere)
    (hd : normSq (dirOf st time) = 1)
    (h0 : dotV (st.m_world_transform time).c0 (st.m_world_transform time).c2 = 0)
    (h1 : dotV (st.m_world_transform time).c1 (st.m_world_transform time).c2 = 0)
    (hr : 0 ≤ st.m_bsphere.radius)
    (htgt : match st.targetType with
      | RayTargetType.Point =>
          normSq (vsub st.m_ray_target_point st.m_bsphere.center) ≤
            st.m_bsphere.radius ^ 2
      | RayTargetType.Shape =>
          normSq (vsub (st.m_ray_target_shape.sample_position time ap).p
              st.m_bsphere.center) ≤ st.m_bsphere.radius ^ 2
      | RayTargetType.None => True) :
    st.m_bsphere.radius ^ 2 ≤
      normSq (vsub (sample_ray_impl env st time ws ap act).ray.o
        st.m_bsphere.center) := by
  cases hT : st.targetType with
  | Point =>
    rw [hT] at htgt
    simp only at htgt
    have hox : (sample_ray_impl env st time ws ap act).ray.o =
        vsub st.m_ray_target_point
          (vsmul (2 * st.m_bsphere.radius) (dirOf st time)) := by
      simp [sample_ray_impl, sampleTargetOf, sampleOriginOf, hT, hO]
    rw [hox]
    have hre : vsub (vsub st.m_ray_target_point
          (vsmul (2 * st.m_bsphere.radius) (dirOf st time)))
          st.m_bsphere.center =
        vsub (vsub st.m_ray_target_point st.m_bsphere.center)
          (vsmul (2 * st.m_bsphere.radius) (dirOf st time)) := by
      apply Vec3.ext3 <;> simp [vsub, vsmul] <;> ring
    rw [hre]
    exact backoff_two _ _ _ hr hd htgt
  | Shape =>
    rw [hT] at htgt
    simp only at htgt
    have hox : (sample_ray_impl env st time ws ap act).ray.o =
        vsub (st.m_ray_target_shape.sample_position time ap).p
          (vsmul (2 * st.m_bsphere.radius) (dirOf st time)) := by
      simp [sample_ray_impl, sampleTargetOf, sampleOriginOf, hT, hO]
    rw [hox]
    have hre : vsub (vsub (st.m_ray_target_shape.sample_position time ap).p
          (vsmul (2 * st.m_bsphere.radius) (dirOf st time)))
          st.m_bsphere.center =
        vsub (vsub (st.m_ray_target_shape.sample_position time ap).p
            st.m_bsphere.center)
          (vsmul (2 * st.m_bsphere.radius) (dirOf st time)) := by
      apply Vec3.ext3 <;> simp [vsub, vsmul] <;> ring
    rw [hre]
    exact backoff_two _ _ _ hr hd htgt
  | None =>
    have hox : (sample_ray_impl env st time ws ap act).ray.o =
        vsub (vadd st.m_bsphere.center (vsmul st.m_bsphere.radius
            (transformVec (st.m_world_transform time)
              ⟨(env.square_to_uniform_disk_concentric ap).1,
               (env.square_to_uniform_disk_concentric ap).2, 0⟩)))
          (vsmul st.m_bsphere.radius (dirOf st time)) := by
      simp [sample_ray_impl, sampleTargetOf, sampleOriginOf, hT, hO]
    rw [hox]
    have hre : vsub (vsub (vadd st.m_bsphere.center
          (vsmul st.m_bsphere.radius
            (transformVec (st.m_world_transform time)
              ⟨(env.square_to_uniform_disk_concentric ap).1,
               (env.square_to_uniform_disk_concentric ap).2, 0⟩)))
          (vsmul st.m_bsphere.radius (dirOf st time))) st.m_bsphere.center =
        vsub (vsmul st.m_bsphere.radius
            (transformVec (st.m_world_transform time)
              ⟨(env.square_to_uniform_disk_concentric ap).1,
               (env.square_to_uniform_disk_concentric ap).2, 0⟩))
          (vsmul st.m_bsphere.radius (dirOf st time)) := by
      apply Vec3.ext3 <;> simp [vsub, vadd, vsmul] <;> ring
    rw [hre]
    exact backoff_perp _ _ _ hd (perp_dot _ _ _ h0 h1)

/-- C2 witness: the None-target scenario state satisfies all hypotheses
and its origin lies outside the unit bounding sphere. -/
theorem C2_bsphere_origin_distance_witness :
    c5State.originType = RayOriginType.BoundingSphere ∧
    normSq (dirOf c5State 0) = 1 ∧
    (1 : ℚ) ≤ normSq (vsub (sample_ray_impl trivEnv c5State 0 0 (0, 0)
      true).ray.o c5State.m_bsphere.center) := by
  have hd : normSq (dirOf c5State 0) = 1 := by
    norm_num [normSq, dirOf, c5State, mkTrafoFromDir, look_at,
      coordinate_system, crossV, transformVec, vadd, vsmul, dotV]
  have h0 : dotV (c5State.m_world_transform 0).c0
      (c5State.m_world_transform 0).c2 = 0 := by
    norm_num [c5State, mkTrafoFromDir, look_at, coordinate_system, crossV,
      dotV]
  have h1 : dotV (c5State.m_world_transform 0).c1
      (c5State.m_world_transform 0).c2 = 0 := by
    norm_num [c5State, mkTrafoFromDir, look_at, coordinate_system, crossV,
      dotV]
  have hmain := C2_bsphere_origin_distance trivEnv c5State 0 0 (0, 0) true rfl
    hd h0 h1 (by norm_num [c5State]) trivial
  refine ⟨rfl, hd, ?_⟩
  have hr2 : c5State.m_bsphere.radius ^ 2 = 1 := by norm_num [c5State]
  rw [hr2] at hmain
  exact hmain

/-- Property bag of the C2 counterexample: Point target at (0, 0, 3/2),
identity `to_world`, default origin strategy, 1x1 film. -/
def c2Props : Properties :=
  { direction := none
    to_world := some fun _ => idTrafo
    ray_target := some (PropValue.point ⟨0, 0, 3/2⟩)
    ray_origin := none
    filmSize := (1, 1) }

/-- The scene of the C2 counterexample: its bounding sphere radius is
chosen so that the inflated stored radius is exactly 1. -/
def c2Scene : Scene := ⟨⟨v0, 4194304 / 4194679⟩⟩

/-- The sensor state the C2 counterexample constructs and attaches. -/
def c2State : SensorState :=
  { targetType := RayTargetType.Point
    originType := RayOriginType.BoundingSphere
    m_world_transform := fun _ => idTrafo
    m_ray_target_point := ⟨0, 0, 3/2⟩
    m_ray_target_shape := defaultShape
    m_ray_origin_shape := defaultShape
    m_bsphere := ⟨v0, 1⟩ }

/-- C2 counterexample: a legally constructed and scene-attached sensor in
Point-target / BoundingSphere-origin mode whose configured target point
(0,0,3/2) lies outside the unit bounding sphere returns a ray with origin
(0,0,-1/2), at distance 1/2 < radius = 1 from the center, refuting the
claim that the origin always lies at distance at least the radius. -/
theorem C2_bsphere_origin_distance_counterexample :
    mkDistantSensorImpl trivEnv c2Props =
      Except.ok { c2State with m_bsphere := ⟨v0, 0⟩ } ∧
    set_scene { c2State with m_bsphere := ⟨v0, 0⟩ } c2Scene = c2State ∧
    (sample_ray_impl trivEnv c2State 0 0 (0, 0) true).ray.o = ⟨0, 0, -1/2⟩ ∧
    normSq (vsub (sample_ray_impl trivEnv c2State 0 0 (0, 0) true).ray.o
        c2State.m_bsphere.center) <
      c2State.m_bsphere.radius ^ 2 := by
  refine ⟨rfl, ?_, ?_, ?_⟩
  · norm_num [set_scene, c2Scene, c2State, rayEpsilon, max_def]
  · norm_num [sample_ray_impl, sampleTargetOf, sampleOriginOf, c2State,
      dirOf, idTrafo, transformVec, vadd, vsub, vsmul, v0]
  · norm_num [sample_ray_impl, sampleTargetOf, sampleOriginOf, c2State,
      dirOf, idTrafo, transformVec, vadd, vsub, vsmul, v0, normSq, dotV]

/-- A target shape whose area sampling returns pdf = 0, with normal
(0,0,-1) facing the reversed viewing direction. -/
def pdfZeroShape : Shape :=
  { sample_position := fun _ _ => ⟨v0, ⟨0, 0, -1⟩, 0⟩
    ray_intersect := fun r => ⟨r.o, true⟩ }

/-- Shape-target / BoundingSphere-origin state around the pdf-0 shape. -/
def c1State : SensorState :=
  { targetType := RayTargetType.Shape
    originType := RayOriginType.BoundingSphere
    m_world_transform := fun _ => idTrafo
    m_ray_target_point := v0
    m_ray_target_shape := pdfZeroShape
    m_ray_origin_shape := defaultShape
    m_bsphere := ⟨v0, 1⟩ }

/-- C1: in Shape-target mode the weight is computed as
`wav_weight * dot(-d, n) / ps.pdf` by an unconditional division
(line 297); the pre-division value and the divisor are exactly those of
the claimed formula, but when the position-sampling routine returns
pdf = 0 the division by zero does happen: with spectral weight 1 and
dot(-d, n) = 1 the returned weight is the IEEE infinity, not 0. -/
theorem C1_shape_target_pdf_zero_divides :
    (pdfZeroShape.sample_position 0 (0, 0)).pdf = 0 ∧
    (sample_ray_impl trivEnv c1State 0 0 (0, 0) true).weight =
      divE ((trivEnv.sample_wavelength 0).2 *
        dotV (vneg (dirOf c1State 0)) (pdfZeroShape.sample_position 0 (0, 0)).n)
        (pdfZeroShape.sample_position 0 (0, 0)).pdf ∧
    (sample_ray_impl trivEnv c1State 0 0 (0, 0) true).weight = ExtQ.inf ∧
    ExtQ.inf ≠ ExtQ.fin 0 := by
  refine ⟨rfl, ?_, ?_, by simp⟩
  · simp [sample_ray_impl, sampleTargetOf, sampleOriginOf, c1State, maskW]
  · norm_num [sample_ray_impl, sampleTargetOf, sampleOriginOf, c1State,
      pdfZeroShape, trivEnv, dirOf, idTrafo, transformVec, vadd, vsmul, vneg,
      dotV, divE, maskW, v0]

/-- C10: the `direction` configuration vector is normalized before the
look-at transform is built, so configuring with v or with k * v (k > 0)
yields the same normalized direction, the same constructed sensor, and
the same samples.  The external `normalize` is modelled by its
characteristic property `IsNormalizedOf` (unique positive rescaling of
the input with unit squared length). -/
theorem C10_direction_scale_invariant (env : Env) (props : Properties)
    (v d1 d2 : Vec3) (k : ℚ) (hk : 0 < k)
    (h1 : IsNormalizedOf v d1) (h2 : IsNormalizedOf (vsmul k v) d2)
    (hn1 : env.normalize v = d1) (hn2 : env.normalize (vsmul k v) = d2) :
    d1 = d2 ∧
    mkDistantSensorImpl env { props with direction := some v } =
      mkDistantSensorImpl env { props with direction := some (vsmul k v) } ∧
    ∀ (st1 st2 : SensorState) (i : SampleInput),
      mkDistantSensorImpl env { props with direction := some v } =
        Except.ok st1 →
      mkDistantSensorImpl env { props with direction := some (vsmul k v) } =
        Except.ok st2 →
      sampleAt env st1 i = sampleAt env st2 i := by
  obtain ⟨hu1, k1, hk1, he1⟩ := h1
  obtain ⟨hu2, k2, hk2, he2⟩ := h2
  have he2r : d2 = vsmul (k2 * k) v := by
    rw [he2]
    apply Vec3.ext3 <;> simp [vsmul] <;> ring
  have hq1 : k1 ^ 2 * dotV v v = 1 := by
    rw [he1] at hu1
    simp only [dotV, vsmul] at hu1 ⊢
    linear_combination hu1
  have hq2 : (k2 * k) ^ 2 * dotV v v = 1 := by
    rw [he2r] at hu2
    simp only [dotV, vsmul] at hu2 ⊢
    linear_combination hu2
  have hqne : dotV v v ≠ 0 := by
    intro h
    rw [h, mul_zero] at hq1
    exact one_ne_zero hq1.symm
  have hsq : k1 ^ 2 = (k2 * k) ^ 2 :=
    mul_right_cancel₀ hqne (by rw [hq1, hq2])
  have hfac : (k1 - k2 * k) * (k1 + k2 * k) = 0 := by linear_combination hsq
  have hkk : k1 = k2 * k := by
    rcases mul_eq_zero.mp hfac with h | h
    · linarith
    · nlinarith [mul_pos hk2 hk]
  have hd12 : d1 = d2 := by rw [he1, he2r, hkk]
  have hmk : mkDistantSensorImpl env { props with direction := some v } =
      mkDistantSensorImpl env { props with direction := some (vsmul k v) } := by
    simp [mkDistantSensorImpl, resolveTransform, resolveTargetPoint,
      resolveTargetShape, resolveOriginShape, rayTargetTypeOf, rayOriginTypeOf,
      hn1, hn2, hd12]
  refine ⟨hd12, hmk, fun st1 st2 i e1 e2 => ?_⟩
  rw [hmk, e2] at e1
  rw [Except.ok.injEq] at e1
  rw [e1]

/-- Environment whose normalization routine maps the witness inputs to
the unit vector (0,0,1). -/
def c10Env : Env := { trivEnv with normalize := fun _ => ⟨0, 0, 1⟩ }

/-- C10 witness: v = (0,0,2) and 3 * v = (0,0,6) normalize to the same
unit direction and construct identical sensors. -/
theorem C10_direction_scale_invariant_witness :
    (0 : ℚ) < 3 ∧
    IsNormalizedOf ⟨0, 0, 2⟩ ⟨0, 0, 1⟩ ∧
    IsNormalizedOf (vsmul 3 ⟨0, 0, 2⟩) ⟨0, 0, 1⟩ ∧
    mkDistantSensorImpl c10Env { trivProps with direction := some ⟨0, 0, 2⟩ } =
      mkDistantSensorImpl c10Env
        { trivProps with direction := some (vsmul 3 ⟨0, 0, 2⟩) } := by
  have h1 : IsNormalizedOf ⟨0, 0, 2⟩ ⟨0, 0, 1⟩ := by
    refine ⟨by norm_num [dotV], 1/2, by norm_num, ?_⟩
    apply Vec3.ext3 <;> norm_num [vsmul]
  have h2 : IsNormalizedOf (vsmul 3 ⟨0, 0, 2⟩) ⟨0, 0, 1⟩ := by
    refine ⟨by norm_num [dotV], 1/6, by norm_num, ?_⟩
    apply Vec3.ext3 <;> norm_num [vsmul]
  exact ⟨by norm_num, h1, h2,
    (C10_direction_scale_invariant c10Env trivProps ⟨0, 0, 2⟩ ⟨0, 0, 1⟩
      ⟨0, 0, 1⟩ 3 (by norm_num) h1 h2 rfl rfl).2.1⟩

end Distant
